import Mathlib

/-!
Verification development for the go-bbs driver facade (package bbs, file bbs.go).

The file shallowly embeds the facade layer of the repository: the driver
registry with Open, the board-record and article-index read operations with
their error policy, the write-capability operations, and the user-article
aggregation scan of GetUserArticleRecordFile. Go errors are modelled by their
message string (the facade only inspects errors through Error() substring
tests and wraps them into new messages). Fallible Go functions returning
(T, error) become Except Err T; the two facade methods that perform an
unchecked interface type assertion (NewBoardRecord, AddBoardRecord) return an
Outcome that can also record a runtime panic, which is what Go does when the
assertion fails. Optional Go interfaces (WriteBoardConnector,
UserArticleConnector) are modelled as Option-valued capability fields of the
Connector, matching runtime capability probing by type assertion.
-/

deriving instance DecidableEq for Except

namespace BBS

/-- Go error values are modelled by their message, the only part of an error
the facade ever inspects (via Error() substring tests) or constructs. -/
abbrev Err := String

/-- BoardRecord interface of bbs.go: one board or class header. -/
structure BoardRecord where
  boardID : String
  title : String
  isClass : Bool
  classID : String
  bm : List String
deriving DecidableEq

/-- ArticleRecord interface of bbs.go: one entry of the article index of a
board. Modified time is modelled as a Nat tick count. -/
structure ArticleRecord where
  filename : String
  modified : Nat
  recommend : Int
  date : String
  title : String
  money : Int
  owner : String
deriving DecidableEq

/-- Modelled from the spec: the UserArticleRecord contract lives in a
repository file that is not under src; spec section 3 gives its fields as
board id, title, owner and article filename, and bbs.go line 417 constructs
one from exactly the keys board_id, title, owner, article_id. -/
structure UserArticleRecord where
  boardID : String
  title : String
  owner : String
  articleID : String
deriving DecidableEq

/-- Argument mapping passed opaquely to NewBoardRecord; the facade never
inspects it, so the Go map of string to empty-interface is modelled as an
association list of strings. -/
abbrev Args := List (String × String)

/-- WriteBoardConnector optional capability of bbs.go (board-record
mutation). -/
structure WriteBoardConnector where
  newBoardRecord : Args → Except Err BoardRecord
  addBoardRecordFileRecord : String → BoardRecord → Except Err Unit
  updateBoardRecordFileRecord : String → Nat → BoardRecord → Except Err Unit
  readBoardRecordFileRecord : String → Nat → Except Err BoardRecord
  removeBoardRecordFileRecord : String → Nat → Except Err Unit

/-- UserArticleConnector optional capability of bbs.go (cached per-user
article index). -/
structure UserArticleConnector where
  getUserArticleRecordsPath : String → Except Err String
  readUserArticleRecordFile : String → Except Err (List UserArticleRecord)
  writeUserArticleRecordFile : String → List UserArticleRecord → Except Err Unit
  appendUserArticleRecordFile : String → UserArticleRecord → Except Err Unit

/-- Connector interface of bbs.go, restricted to the operations the verified
facade methods call, together with the two optional capabilities a Go driver
may additionally implement, modelled as Option fields probed at call time. -/
structure Connector where
  openDSN : String → Except Err Unit
  getBoardRecordsPath : Except Err String
  readBoardRecordsFile : String → Except Err (List BoardRecord)
  getBoardArticleRecordsPath : String → Except Err String
  getBoardTreasureRecordsPath : String → List String → Except Err String
  readArticleRecordsFile : String → Except Err (List ArticleRecord)
  writeBoard : Option WriteBoardConnector
  userArticle : Option UserArticleConnector

/-- DB of bbs.go: the facade bound to one opened Connector. -/
structure DB where
  connector : Connector

/-- Outcome of a Go call that can also terminate by runtime panic, as the
unchecked type assertions in NewBoardRecord and AddBoardRecord do. -/
inductive Outcome (α : Type) where
  | ok : α → Outcome α
  | err : Err → Outcome α
  | panic : String → Outcome α
deriving DecidableEq

/-- Driver registry of bbs.go: the package-level drivers map. -/
abbrev Registry := String → Option Connector

/-- Register of bbs.go: store a connector under a name, overwriting. -/
def Register (reg : Registry) (drivername : String) (c : Connector) : Registry :=
  fun n => if n == drivername then some c else reg n

/-- Message of the error returned by Open for an unregistered driver name. -/
def driverNotFoundMsg (drivername : String) : Err :=
  "bbs: drivername: " ++ drivername ++ " not found"

/-- Message of the error returned by Open when the driver Open call fails. -/
def driverOpenErrMsg (drivername : String) (e : Err) : Err :=
  "bbs: drivername: " ++ drivername ++ " open error: " ++ e

/-- Open of bbs.go lines 185 to 200: look the name up in the registry, open
the connector, and return the bound facade. -/
def Open (reg : Registry) (drivername : String) (dataSourceName : String) :
    Except Err DB :=
  match reg drivername with
  | none => .error (driverNotFoundMsg drivername)
  | some c =>
    match c.openDSN dataSourceName with
    | .error e => .error (driverOpenErrMsg drivername e)
    | .ok _ => .ok { connector := c }

/-- ReadBoardRecords of bbs.go lines 240 to 255: resolve the board-records
path and decode the file, propagating any error. -/
def DB.ReadBoardRecords (db : DB) : Except Err (List BoardRecord) :=
  match db.connector.getBoardRecordsPath with
  | .error e => .error e
  | .ok path =>
    match db.connector.readBoardRecordsFile path with
    | .error e => .error e
    | .ok recs => .ok recs

/-- Decides whether the character list pat is a prefix of the second list;
helper for the substring test of strings.Contains. -/
def charsPrefix : List Char → List Char → Bool
  | [], _ => true
  | _ :: _, [] => false
  | a :: as, b :: bs => a == b && charsPrefix as bs

/-- Decides whether pat occurs as a contiguous run inside hay; helper for
strings.Contains. -/
def charsContains : List Char → List Char → Bool
  | [], pat => charsPrefix pat []
  | hay@(_ :: rest), pat => charsPrefix pat hay || charsContains rest pat

/-- Embedding of Go strings.Contains applied to error messages: true when
pat occurs as a substring of s. -/
def strContains (s pat : String) : Bool :=
  charsContains s.data pat.data

/-- Substring that bbs.go line 268 tests for to classify a decode error as a
missing index file. -/
def noSuchFileMsg : String := "no such file or directory"

/-- ReadBoardArticleRecordsFile of bbs.go lines 257 to 276: resolve the
article-index path of the board and decode it; a decode error whose message
contains the no-such-file substring is mapped to an empty successful result,
any other error propagates. -/
def DB.ReadBoardArticleRecordsFile (db : DB) (boardID : String) :
    Except Err (List ArticleRecord) :=
  match db.connector.getBoardArticleRecordsPath boardID with
  | .error e => .error e
  | .ok path =>
    match db.connector.readArticleRecordsFile path with
    | .error e =>
      if strContains e noSuchFileMsg then .ok []
      else .error e
    | .ok recs => .ok recs

/-- ReadBoardTreasureRecordsFile of bbs.go lines 278 to 293: resolve the
treasure-index path and decode it, propagating any error unchanged (the
function has no counterpart of the no-such-file tolerance of the article
index read). -/
def DB.ReadBoardTreasureRecordsFile (db : DB) (boardID : String)
    (treasureID : List String) : Except Err (List ArticleRecord) :=
  match db.connector.getBoardTreasureRecordsPath boardID treasureID with
  | .error e => .error e
  | .ok path =>
    match db.connector.readArticleRecordsFile path with
    | .error e => .error e
    | .ok recs => .ok recs

/-- Message of the Go runtime panic raised by a failed interface type
assertion to WriteBoardConnector. -/
def writeBoardAssertPanicMsg : String :=
  "interface conversion: connector does not implement WriteBoardConnector"

/-- NewBoardRecord of bbs.go lines 329 to 331: unchecked type assertion to
WriteBoardConnector, then delegate; the assertion panics when the connector
lacks the capability. -/
def DB.NewBoardRecord (db : DB) (args : Args) : Outcome BoardRecord :=
  match db.connector.writeBoard with
  | none => .panic writeBoardAssertPanicMsg
  | some wb =>
    match wb.newBoardRecord args with
    | .error e => .err e
    | .ok brd => .ok brd

/-- AddBoardRecord of bbs.go lines 333 to 348: resolve the board-records
path, then unchecked type assertion to WriteBoardConnector and append; the
assertion panics when the connector lacks the capability. -/
def DB.AddBoardRecord (db : DB) (brd : BoardRecord) : Outcome Unit :=
  match db.connector.getBoardRecordsPath with
  | .error e => .err e
  | .ok path =>
    match db.connector.writeBoard with
    | none => .panic writeBoardAssertPanicMsg
    | some wb =>
      match wb.addBoardRecordFileRecord path brd with
      | .error e => .err e
      | .ok _ => .ok ()

/-- shouldSkip closure of bbs.go lines 397 to 402: the ALLPOST sentinel board
is skipped by the aggregation scan. -/
def shouldSkip (boardID : String) : Bool :=
  if boardID == "ALLPOST" then true else false

/-- Record synthesized by the aggregation loop of bbs.go lines 417 to 422
for one matching article of one board. -/
def synthRecord (boardID : String) (ar : ArticleRecord) : UserArticleRecord :=
  { boardID := boardID, title := ar.title, owner := ar.owner,
    articleID := ar.filename }

/-- Board loop of GetUserArticleRecordFile, bbs.go lines 404 to 426: walk the
board records, skip ALLPOST, read each article index through
ReadBoardArticleRecordsFile (aborting on error), and append one synthesized
record per article owned by userID. The second component is a ghost trace of
the board ids whose article index the loop read, in order; it carries no
information back into the first component. -/
def scanBoards (db : DB) (userID : String) :
    List BoardRecord → List UserArticleRecord →
    Except Err (List UserArticleRecord) × List String
  | [], recs => (.ok recs, [])
  | r :: rest, recs =>
    if shouldSkip r.boardID then scanBoards db userID rest recs
    else
      match db.ReadBoardArticleRecordsFile r.boardID with
      | .error e => (.error e, [r.boardID])
      | .ok ars =>
        let next := scanBoards db userID rest
          (recs ++ (ars.filter (fun ar => ar.owner == userID)).map
            (synthRecord r.boardID))
        (next.1, r.boardID :: next.2)

/-- Fallback aggregation of GetUserArticleRecordFile, bbs.go lines 391 to
428: read the board records, then scan them starting from the empty
accumulator. -/
def DB.aggregateScan (db : DB) (userID : String) :
    Except Err (List UserArticleRecord) × List String :=
  match db.ReadBoardRecords with
  | .error e => (.error e, [])
  | .ok boardRecords => scanBoards db userID boardRecords []

/-- GetUserArticleRecordFile of bbs.go lines 367 to 429, with the ghost
trace of article-index reads as second component: probe the
UserArticleConnector capability; when present, resolve the cached path and
read it, returning any error, and return the cached list verbatim when it is
non-empty; otherwise (capability absent, or cached list empty) fall back to
the board scan. -/
def DB.GetUserArticleRecordFileT (db : DB) (userID : String) :
    Except Err (List UserArticleRecord) × List String :=
  match db.connector.userArticle with
  | some uac =>
    match uac.getUserArticleRecordsPath userID with
    | .error e => (.error e, [])
    | .ok path =>
      match uac.readUserArticleRecordFile path with
      | .error e => (.error e, [])
      | .ok recs =>
        if recs.length != 0 then (.ok recs, [])
        else db.aggregateScan userID
  | none => db.aggregateScan userID

/-- GetUserArticleRecordFile of bbs.go lines 367 to 429: the returned value,
without the ghost trace. -/
def DB.GetUserArticleRecordFile (db : DB) (userID : String) :
    Except Err (List UserArticleRecord) :=
  (db.GetUserArticleRecordFileT userID).1

/-- Aggregation output as the spec words it, for the refinement claim: for
each board record in enumeration order whose id is not ALLPOST, for each
article of that board owned by userID in article order, one synthesized
record, all concatenated. The article index of a board is given abstractly
by the function arts. -/
def specAggregate (boards : List BoardRecord)
    (arts : String → List ArticleRecord) (userID : String) :
    List UserArticleRecord :=
  (boards.filter (fun b => !(b.boardID == "ALLPOST"))).flatMap
    (fun b => ((arts b.boardID).filter (fun ar => ar.owner == userID)).map
      (synthRecord b.boardID))

/-- shouldSkip tests exactly equality of the board id with ALLPOST. -/
lemma shouldSkip_eq (s : String) : shouldSkip s = (s == "ALLPOST") := by
  unfold shouldSkip
  cases h : s == "ALLPOST" <;> simp [h]

/-- Boards whose id equals ALLPOST contribute nothing to specAggregate. -/
lemma specAggregate_cons_skip (b : BoardRecord) (rest : List BoardRecord)
    (arts : String → List ArticleRecord) (u : String)
    (hb : (b.boardID == "ALLPOST") = true) :
    specAggregate (b :: rest) arts u = specAggregate rest arts u := by
  simp [specAggregate, hb]

/-- A non-ALLPOST board contributes its owned articles in front of the rest
of specAggregate. -/
lemma specAggregate_cons (b : BoardRecord) (rest : List BoardRecord)
    (arts : String → List ArticleRecord) (u : String)
    (hb : (b.boardID == "ALLPOST") = false) :
    specAggregate (b :: rest) arts u =
      ((arts b.boardID).filter (fun ar => ar.owner == u)).map
        (synthRecord b.boardID) ++ specAggregate rest arts u := by
  simp [specAggregate, hb]

/-- When every non-skipped board index reads successfully, the scan returns
the accumulator followed by the spec-level aggregation of the boards. -/
lemma scanBoards_ok (db : DB) (u : String)
    (arts : String → List ArticleRecord) :
    ∀ (boards : List BoardRecord) (acc : List UserArticleRecord),
    (∀ b ∈ boards, shouldSkip b.boardID = false →
      db.ReadBoardArticleRecordsFile b.boardID = Except.ok (arts b.boardID)) →
    (scanBoards db u boards acc).1 =
      Except.ok (acc ++ specAggregate boards arts u) := by
  intro boards
  induction boards with
  | nil => intro acc _; simp [scanBoards, specAggregate]
  | cons b rest ih =>
    intro acc h
    cases hb : shouldSkip b.boardID with
    | true =>
      have hb2 : (b.boardID == "ALLPOST") = true := by
        rwa [shouldSkip_eq] at hb
      have hrest : ∀ b2 ∈ rest, shouldSkip b2.boardID = false →
          db.ReadBoardArticleRecordsFile b2.boardID =
            Except.ok (arts b2.boardID) :=
        fun b2 hm => h b2 (List.mem_cons_of_mem b hm)
      simp only [scanBoards, hb, if_true]
      rw [ih acc hrest, specAggregate_cons_skip b rest arts u hb2]
    | false =>
      have hb2 : (b.boardID == "ALLPOST") = false := by
        rwa [shouldSkip_eq] at hb
      have hr : db.ReadBoardArticleRecordsFile b.boardID =
          Except.ok (arts b.boardID) := h b (List.mem_cons_self b rest) hb
      have hrest : ∀ b2 ∈ rest, shouldSkip b2.boardID = false →
          db.ReadBoardArticleRecordsFile b2.boardID =
            Except.ok (arts b2.boardID) :=
        fun b2 hm => h b2 (List.mem_cons_of_mem b hm)
      simp only [scanBoards, hb, if_false, hr, Bool.false_eq_true]
      rw [ih _ hrest, specAggregate_cons b rest arts u hb2]
      simp [List.append_assoc]

/-- The scan neither emits a record with board id ALLPOST beyond those
already in the accumulator, nor records ALLPOST in its read trace. -/
lemma scanBoards_no_allpost (db : DB) (u : String) :
    ∀ (boards : List BoardRecord) (acc : List UserArticleRecord),
    (∀ rec ∈ acc, rec.boardID ≠ "ALLPOST") →
    ((∀ recs, (scanBoards db u boards acc).1 = Except.ok recs →
        ∀ rec ∈ recs, rec.boardID ≠ "ALLPOST") ∧
      "ALLPOST" ∉ (scanBoards db u boards acc).2) := by
  intro boards
  induction boards with
  | nil =>
    intro acc hacc
    constructor
    · intro recs hrecs rec hm
      simp only [scanBoards, Except.ok.injEq] at hrecs
      exact hacc rec (hrecs ▸ hm)
    · simp [scanBoards]
  | cons b rest ih =>
    intro acc hacc
    cases hb : shouldSkip b.boardID with
    | true =>
      simpa only [scanBoards, hb, if_true] using ih acc hacc
    | false =>
      have hbne : b.boardID ≠ "ALLPOST" := by
        rw [shouldSkip_eq] at hb
        exact fun hEq => by simp [hEq] at hb
      cases hread : db.ReadBoardArticleRecordsFile b.boardID with
      | error e =>
        constructor
        · intro recs hrecs
          simp only [scanBoards, hb, Bool.false_eq_true, if_false, hread]
            at hrecs
          exact absurd hrecs (by simp)
        · simp only [scanBoards, hb, Bool.false_eq_true, if_false, hread]
          simpa using fun hEq => hbne hEq.symm
      | ok ars =>
        have hacc2 : ∀ rec ∈ acc ++ (ars.filter
            (fun ar => ar.owner == u)).map (synthRecord b.boardID),
            rec.boardID ≠ "ALLPOST" := by
          intro rec hm
          rcases List.mem_append.mp hm with hm1 | hm2
          · exact hacc rec hm1
          · rcases List.mem_map.mp hm2 with ⟨ar, _, hEq⟩
            rw [← hEq]
            exact hbne
        have := ih _ hacc2
        constructor
        · intro recs hrecs
          simp only [scanBoards, hb, Bool.false_eq_true, if_false, hread]
            at hrecs
          exact this.1 recs hrecs
        · simp only [scanBoards, hb, Bool.false_eq_true, if_false, hread,
            List.mem_cons]
          push_neg
          exact ⟨fun hEq => hbne hEq.symm, this.2⟩

/-- When every non-skipped board before a failing board reads successfully
and that failing board is not skipped, the scan aborts with the failing
boards error. -/
lemma scanBoards_err (db : DB) (u : String) (e : Err) :
    ∀ (pre : List BoardRecord) (bad : BoardRecord) (post : List BoardRecord)
      (acc : List UserArticleRecord),
    (∀ b ∈ pre, shouldSkip b.boardID = false →
      ∃ l, db.ReadBoardArticleRecordsFile b.boardID = Except.ok l) →
    shouldSkip bad.boardID = false →
    db.ReadBoardArticleRecordsFile bad.boardID = Except.error e →
    (scanBoards db u (pre ++ bad :: post) acc).1 = Except.error e := by
  intro pre
  induction pre with
  | nil =>
    intro bad post acc _ hbad herr
    simp [scanBoards, hbad, herr]
  | cons b rest ih =>
    intro bad post acc h hbad herr
    have hrest : ∀ b2 ∈ rest, shouldSkip b2.boardID = false →
        ∃ l, db.ReadBoardArticleRecordsFile b2.boardID = Except.ok l :=
      fun b2 hm => h b2 (List.mem_cons_of_mem b hm)
    cases hb : shouldSkip b.boardID with
    | true =>
      simp only [List.cons_append, scanBoards, hb, if_true]
      exact ih bad post acc hrest hbad herr
    | false =>
      rcases h b (List.mem_cons_self b rest) hb with ⟨l, hl⟩
      simp only [List.cons_append, scanBoards, hb, Bool.false_eq_true,
        if_false, hl]
      exact ih bad post _ hrest hbad herr

/-- Condition under which GetUserArticleRecordFile takes the aggregation
path: the capability is absent, or the cached read succeeds with an empty
list. -/
def fallbackCond (db : DB) (u : String) : Prop :=
  db.connector.userArticle = none ∨
    ∃ uac path, db.connector.userArticle = some uac ∧
      uac.getUserArticleRecordsPath u = Except.ok path ∧
      uac.readUserArticleRecordFile path = Except.ok []

/-- Under the fallback condition, GetUserArticleRecordFileT is the
aggregation scan. -/
lemma getUserArticle_fallback (db : DB) (u : String)
    (hfall : fallbackCond db u) :
    db.GetUserArticleRecordFileT u = db.aggregateScan u := by
  rcases hfall with hnone | ⟨uac, path, hsome, hp, hr⟩
  · simp [DB.GetUserArticleRecordFileT, hnone]
  · simp [DB.GetUserArticleRecordFileT, hsome, hp, hr]

/-- Board-record fixture with the given id and inert metadata. -/
def mkBoard (bid : String) : BoardRecord :=
  { boardID := bid, title := "board " ++ bid, isClass := false,
    classID := "", bm := [] }

/-- Article-record fixture with the given filename and owner. -/
def mkArticle (fn ow : String) : ArticleRecord :=
  { filename := fn, modified := 0, recommend := 0, date := "01/01",
    title := "title " ++ fn, money := 0, owner := ow }

/-- Board set of the worked example of spec section 8. -/
def demoBoards : List BoardRecord :=
  [mkBoard "A", mkBoard "B", mkBoard "ALLPOST"]

/-- Article index of board A in the worked example. -/
def artsA : List ArticleRecord := [mkArticle "art1" "U", mkArticle "art2" "V"]

/-- Article index of board B in the worked example. -/
def artsB : List ArticleRecord := [mkArticle "art3" "U"]

/-- Article index of the ALLPOST meta-board in the worked example. -/
def artsAll : List ArticleRecord := [mkArticle "art4" "U"]

/-- Abstract per-board article index of the worked example. -/
def demoArts (bid : String) : List ArticleRecord :=
  if bid == "A" then artsA
  else if bid == "B" then artsB
  else if bid == "ALLPOST" then artsAll
  else []

/-- Error message a backend produces for a path with no file behind it. -/
def missingMsg (p : String) : Err := p ++ ": no such file or directory"

/-- Connector fixture for the worked example: board records live at .BRD,
article indices of boards A, B and ALLPOST decode to the demo indices, any
other article path fails with a missing-file message, and neither optional
capability is implemented. -/
def demoConnector : Connector :=
  { openDSN := fun _ => Except.ok ()
  , getBoardRecordsPath := Except.ok ".BRD"
  , readBoardRecordsFile := fun p =>
      if p == ".BRD" then Except.ok demoBoards
      else Except.error (missingMsg p)
  , getBoardArticleRecordsPath := fun bid =>
      Except.ok ("boards/" ++ bid ++ "/.DIR")
  , getBoardTreasureRecordsPath := fun bid _ =>
      Except.ok ("man/" ++ bid ++ "/.DIR")
  , readArticleRecordsFile := fun p =>
      if p == "boards/A/.DIR" then Except.ok artsA
      else if p == "boards/B/.DIR" then Except.ok artsB
      else if p == "boards/ALLPOST/.DIR" then Except.ok artsAll
      else Except.error (missingMsg p)
  , writeBoard := none
  , userArticle := none }

/-- Facade bound to the worked-example connector. -/
def dbDemo : DB := { connector := demoConnector }

/-- Non-empty cached user-article list fixture. -/
def cachedList : List UserArticleRecord :=
  [{ boardID := "C", title := "cached title", owner := "U",
     articleID := "artC" }]

/-- UserArticleConnector fixture whose cache for user U holds cachedList. -/
def demoUAC : UserArticleConnector :=
  { getUserArticleRecordsPath := fun uid =>
      Except.ok ("home/" ++ uid ++ "/.mypost")
  , readUserArticleRecordFile := fun p =>
      if p == "home/U/.mypost" then Except.ok cachedList else Except.ok []
  , writeUserArticleRecordFile := fun _ _ => Except.ok ()
  , appendUserArticleRecordFile := fun _ _ => Except.ok () }

/-- Connector fixture with a populated user-article cache and a broken
board-records side, to exhibit that a cache hit consults no board data. -/
def cacheConnector : Connector :=
  { demoConnector with
    userArticle := some demoUAC
  , getBoardRecordsPath := Except.error "board records unavailable" }

/-- Facade bound to the cache-hit connector. -/
def dbCache : DB := { connector := cacheConnector }

/-- Not-found message of the cached user-article read fixture. -/
def nfCacheErr : Err := "open home/U/.mypost: no such file or directory"

/-- UserArticleConnector fixture whose cached read fails with a not-found
error. -/
def errUAC : UserArticleConnector :=
  { demoUAC with readUserArticleRecordFile := fun _ => Except.error nfCacheErr }

/-- Connector fixture with the failing cached read over the demo boards. -/
def errCacheConnector : Connector :=
  { demoConnector with userArticle := some errUAC }

/-- Facade bound to the failing-cache connector. -/
def dbCacheErr : DB := { connector := errCacheConnector }

/-- UserArticleConnector fixture whose cached read succeeds empty. -/
def emptyUAC : UserArticleConnector :=
  { demoUAC with readUserArticleRecordFile := fun _ => Except.ok [] }

/-- Connector fixture with an empty cache over the demo boards. -/
def emptyCacheConnector : Connector :=
  { demoConnector with userArticle := some emptyUAC }

/-- Facade bound to the empty-cache connector. -/
def dbCacheEmpty : DB := { connector := emptyCacheConnector }

/-- Format-error message of a present but malformed article index. -/
def fmtErr : Err := "parse article record: unexpected record length"

/-- Connector fixture whose board C index is present but malformed, while
board A decodes fine. -/
def badConnector : Connector :=
  { demoConnector with
    readBoardRecordsFile := fun p =>
      if p == ".BRD" then Except.ok [mkBoard "A", mkBoard "C"]
      else Except.error (missingMsg p)
  , readArticleRecordsFile := fun p =>
      if p == "boards/A/.DIR" then Except.ok artsA
      else Except.error fmtErr }

/-- Facade bound to the malformed-index connector. -/
def dbBad : DB := { connector := badConnector }

/-- Decode-error message that contains the no-such-file substring without
describing a missing file. -/
def trickyErr : Err :=
  "parse error: article title says no such file or directory"

/-- Connector fixture whose article-index decode always fails with the
misleading message. -/
def trickyConnector : Connector :=
  { demoConnector with readArticleRecordsFile := fun _ => Except.error trickyErr }

/-- Facade bound to the misleading-message connector. -/
def dbTricky : DB := { connector := trickyConnector }

/-- Registry fixture with no registered driver. -/
def emptyReg : Registry := fun _ => none

/-- Connector fixture whose driver Open succeeds. -/
def connGood : Connector := demoConnector

/-- Connector fixture whose driver Open fails. -/
def connBad : Connector :=
  { demoConnector with openDSN := fun _ => Except.error "bad dsn" }

/-- Registry fixture holding the failing driver under the name bad. -/
def regBad : Registry := Register emptyReg "bad" connBad

/-- Registry fixture holding the good driver under the name good. -/
def regGood : Registry := Register emptyReg "good" connGood

/-- C1: for every opened facade whose user-article cache is absent,
unsupported, or empty (formalised by fallbackCond: the capability is absent
or the cached read succeeds with the empty list), GetUserArticleRecordFile
returns exactly the records synthesized from the board scan: for each board
record in enumeration order whose id is not ALLPOST, for each article of its
index whose owner equals the user, in article order, one record of board id,
title, owner and article filename, all concatenated, with no deduplication
pass, no omissions and no extra records (the right side, specAggregate, is
the spec-side description of that output). -/
theorem C1_aggregation_matches_spec (db : DB) (u : String)
    (boards : List BoardRecord) (arts : String → List ArticleRecord)
    (hfall : fallbackCond db u)
    (hboards : db.ReadBoardRecords = Except.ok boards)
    (harts : ∀ b ∈ boards, shouldSkip b.boardID = false →
      db.ReadBoardArticleRecordsFile b.boardID = Except.ok (arts b.boardID)) :
    db.GetUserArticleRecordFile u =
      Except.ok (specAggregate boards arts u) := by
  unfold DB.GetUserArticleRecordFile
  rw [getUserArticle_fallback db u hfall]
  unfold DB.aggregateScan
  rw [hboards]
  simpa using scanBoards_ok db u arts boards [] harts

/-- Witness for C1 on the worked example of spec section 8: user U gets
exactly the records for article art1 of board A and article art3 of board B,
in that order. -/
theorem C1_witness :
    dbDemo.GetUserArticleRecordFile "U" =
      Except.ok [synthRecord "A" (mkArticle "art1" "U"),
        synthRecord "B" (mkArticle "art3" "U")] := by
  have h := C1_aggregation_matches_spec dbDemo "U" demoBoards demoArts
    (Or.inl rfl) rfl (by decide)
  rw [h]
  decide

/-- C2: for every opened facade whose Connector satisfies the
UserArticleConnector capability, if resolving and reading the cached
user-article list for the user succeeds with a non-empty list, then
GetUserArticleRecordFile returns exactly that list unmodified, for every
state of the board side of the connector (the board fields of db are fully
universally quantified, so the result does not depend on them), and its
ghost trace of board article-index reads is empty. -/
theorem C2_cache_hit_returned_verbatim (db : DB) (u : String)
    (uac : UserArticleConnector) (path : String)
    (l : List UserArticleRecord)
    (hc : db.connector.userArticle = some uac)
    (hp : uac.getUserArticleRecordsPath u = Except.ok path)
    (hr : uac.readUserArticleRecordFile path = Except.ok l)
    (hne : l ≠ []) :
    db.GetUserArticleRecordFile u = Except.ok l ∧
      (db.GetUserArticleRecordFileT u).2 = [] := by
  have hlen : (l.length != 0) = true := by
    simpa using fun h => hne (List.eq_nil_of_length_eq_zero h)
  constructor
  · simp [DB.GetUserArticleRecordFile, DB.GetUserArticleRecordFileT,
      hc, hp, hr, hlen]
  · simp [DB.GetUserArticleRecordFileT, hc, hp, hr, hlen]

/-- Witness for C2: the cache-hit fixture, whose board-records side even
fails to resolve, returns the cached list verbatim with an empty read
trace. -/
theorem C2_witness :
    dbCache.GetUserArticleRecordFile "U" = Except.ok cachedList ∧
      (dbCache.GetUserArticleRecordFileT "U").2 = [] :=
  C2_cache_hit_returned_verbatim dbCache "U" demoUAC "home/U/.mypost"
    cachedList rfl rfl rfl (by decide)

/-- C3 counterexample: on a facade whose cached user-article read fails with
a not-found error (its message contains the no-such-file substring),
GetUserArticleRecordFile returns that error instead of falling back to the
board scan, although the board side of the fixture is intact, so the claim
that a not-found cached read does not fail the operation is false. -/
theorem C3_counterexample :
    strContains nfCacheErr noSuchFileMsg = true ∧
      dbCacheErr.GetUserArticleRecordFile "U" = Except.error nfCacheErr :=
  ⟨by decide, by decide⟩

/-- C3 amended: on a facade with the UserArticleConnector capability whose
cached path resolves, any error of the cached read, a not-found error
included, is returned to the caller with no board scan, and the fallback to
the board scan happens exactly when the cached read succeeds with the empty
list. -/
theorem C3_amended_cache_error_propagates (db : DB) (u : String)
    (uac : UserArticleConnector) (path : String)
    (hc : db.connector.userArticle = some uac)
    (hp : uac.getUserArticleRecordsPath u = Except.ok path) :
    (∀ e, uac.readUserArticleRecordFile path = Except.error e →
      db.GetUserArticleRecordFileT u = (Except.error e, [])) ∧
    (uac.readUserArticleRecordFile path = Except.ok [] →
      db.GetUserArticleRecordFileT u = db.aggregateScan u) := by
  constructor
  · intro e he
    simp [DB.GetUserArticleRecordFileT, hc, hp, he]
  · intro h0
    simp [DB.GetUserArticleRecordFileT, hc, hp, h0]

/-- Witness for the amended C3: the failing-cache fixture returns the
not-found error with an empty trace, and the empty-cache fixture falls back
to the aggregation scan. -/
theorem C3_witness :
    dbCacheErr.GetUserArticleRecordFileT "U" =
        (Except.error nfCacheErr, []) ∧
      dbCacheEmpty.GetUserArticleRecordFileT "U" =
        dbCacheEmpty.aggregateScan "U" :=
  ⟨(C3_amended_cache_error_propagates dbCacheErr "U" errUAC
      "home/U/.mypost" rfl rfl).1 nfCacheErr rfl,
    (C3_amended_cache_error_propagates dbCacheEmpty "U" emptyUAC
      "home/U/.mypost" rfl rfl).2 rfl⟩

/-- The aggregation scan runs on the boards the board-records read
yields. -/
lemma aggregateScan_ok_boards (db : DB) (u : String)
    (boards : List BoardRecord)
    (hbr : db.ReadBoardRecords = Except.ok boards) :
    db.aggregateScan u = scanBoards db u boards [] := by
  simp [DB.aggregateScan, hbr]

/-- A failing board-records read makes the aggregation scan fail with the
same error, with an empty read trace. -/
lemma aggregateScan_err (db : DB) (u : String) (e : Err)
    (hbr : db.ReadBoardRecords = Except.error e) :
    db.aggregateScan u = (Except.error e, []) := by
  simp [DB.aggregateScan, hbr]

/-- C4: whenever GetUserArticleRecordFile takes the aggregation path, for
every board-record set, including any containing an ALLPOST board, a
successful output contains no record whose board id is ALLPOST, and the
ghost trace of article-index reads, which lists exactly the board ids whose
index the scan read, never contains ALLPOST. -/
theorem C4_allpost_excluded (db : DB) (u : String)
    (recs : List UserArticleRecord)
    (hfall : fallbackCond db u)
    (hrecs : db.GetUserArticleRecordFile u = Except.ok recs) :
    recs.all (fun rec => !(rec.boardID == "ALLPOST")) = true ∧
      ((db.GetUserArticleRecordFileT u).2.contains "ALLPOST") = false := by
  have hT := getUserArticle_fallback db u hfall
  cases hbr : db.ReadBoardRecords with
  | error e =>
    have hcontra : db.GetUserArticleRecordFile u = Except.error e := by
      unfold DB.GetUserArticleRecordFile
      rw [hT, aggregateScan_err db u e hbr]
    rw [hcontra] at hrecs
    exact absurd hrecs (by simp)
  | ok boards =>
    have hsc : db.aggregateScan u = scanBoards db u boards [] :=
      aggregateScan_ok_boards db u boards hbr
    have h := scanBoards_no_allpost db u boards [] (by simp)
    have hrecs2 : (scanBoards db u boards []).1 = Except.ok recs := by
      unfold DB.GetUserArticleRecordFile at hrecs
      rw [hT, hsc] at hrecs
      exact hrecs
    constructor
    · rw [List.all_eq_true]
      intro rec hm
      simpa using h.1 recs hrecs2 rec hm
    · rw [hT, hsc]
      simpa using h.2

/-- Witness for C4 on the worked example, whose board set contains an
ALLPOST board holding an article of user U: the output records avoid
ALLPOST and the scan never read the ALLPOST index. -/
theorem C4_witness :
    ([synthRecord "A" (mkArticle "art1" "U"),
        synthRecord "B" (mkArticle "art3" "U")].all
        (fun rec => !(rec.boardID == "ALLPOST")) = true) ∧
      ((dbDemo.GetUserArticleRecordFileT "U").2.contains "ALLPOST") = false :=
  C4_allpost_excluded dbDemo "U"
    [synthRecord "A" (mkArticle "art1" "U"),
      synthRecord "B" (mkArticle "art3" "U")]
    (Or.inl rfl) (by decide)

/-- C5 counterexample: on a facade whose connector lacks the
WriteBoardConnector capability, with the board-records path resolving fine,
NewBoardRecord and AddBoardRecord do not return a capability-missing error:
both end in the runtime panic of the unchecked interface type assertion of
bbs.go lines 330 and 342, so the claim that they fail by returning an error
rather than terminating abnormally is false. -/
theorem C5_counterexample :
    dbDemo.NewBoardRecord [] = Outcome.panic writeBoardAssertPanicMsg ∧
      dbDemo.AddBoardRecord (mkBoard "Z") =
        Outcome.panic writeBoardAssertPanicMsg :=
  ⟨by decide, by decide⟩

/-- C5 amended: on every facade whose connector lacks the
WriteBoardConnector capability, NewBoardRecord terminates abnormally with
the type-assertion panic, and AddBoardRecord does so too once the
board-records path resolves; no capability-missing error is returned to the
caller. -/
theorem C5_amended_missing_capability_panics (db : DB) (args : Args)
    (brd : BoardRecord) (p : String)
    (hcap : db.connector.writeBoard = none)
    (hpath : db.connector.getBoardRecordsPath = Except.ok p) :
    db.NewBoardRecord args = Outcome.panic writeBoardAssertPanicMsg ∧
      db.AddBoardRecord brd = Outcome.panic writeBoardAssertPanicMsg := by
  constructor
  · simp [DB.NewBoardRecord, hcap]
  · simp [DB.AddBoardRecord, hpath, hcap]

/-- Witness for the amended C5 on the capability-less demo connector. -/
theorem C5_witness :
    dbDemo.NewBoardRecord [("title", "new board")] =
        Outcome.panic writeBoardAssertPanicMsg ∧
      dbDemo.AddBoardRecord (mkBoard "NewBoard") =
        Outcome.panic writeBoardAssertPanicMsg :=
  C5_amended_missing_capability_panics dbDemo [("title", "new board")]
    (mkBoard "NewBoard") ".BRD" rfl rfl

/-- C6: when the article-index path of a board resolves and its decode
fails, ReadBoardArticleRecordsFile returns the empty list with no error if
the decode error is a not-found error (its message contains the no-such-file
substring, which is how bbs.go line 268 recognises a missing index file),
and returns the decode error itself otherwise. -/
theorem C6_article_index_notfound_tolerated (db : DB)
    (boardID path : String) (e : Err)
    (hp : db.connector.getBoardArticleRecordsPath boardID = Except.ok path)
    (he : db.connector.readArticleRecordsFile path = Except.error e) :
    (strContains e noSuchFileMsg = true →
      db.ReadBoardArticleRecordsFile boardID = Except.ok []) ∧
    (strContains e noSuchFileMsg = false →
      db.ReadBoardArticleRecordsFile boardID = Except.error e) := by
  constructor
  · intro h1
    simp [DB.ReadBoardArticleRecordsFile, hp, he, h1]
  · intro h1
    simp [DB.ReadBoardArticleRecordsFile, hp, he, h1]

/-- Witness for C6: board X of the demo connector has no index file and
reads as empty without error, while board C of the malformed fixture
surfaces its format error. -/
theorem C6_witness :
    dbDemo.ReadBoardArticleRecordsFile "X" = Except.ok [] ∧
      dbBad.ReadBoardArticleRecordsFile "C" = Except.error fmtErr :=
  ⟨(C6_article_index_notfound_tolerated dbDemo "X" "boards/X/.DIR"
      (missingMsg "boards/X/.DIR") rfl rfl).1 (by decide),
    (C6_article_index_notfound_tolerated dbBad "C" "boards/C/.DIR"
      fmtErr rfl rfl).2 (by decide)⟩

/-- C7 counterexample: a treasure-index decode failure whose message is a
not-found error is returned as that error by ReadBoardTreasureRecordsFile
instead of being mapped to an empty successful result, so the claim that the
treasure index shares the not-found tolerance of the article index is
false. -/
theorem C7_counterexample :
    strContains (missingMsg "man/B/.DIR") noSuchFileMsg = true ∧
      dbDemo.ReadBoardTreasureRecordsFile "B" ["t1"] =
        Except.error (missingMsg "man/B/.DIR") :=
  ⟨by decide, by decide⟩

/-- C7 amended: ReadBoardTreasureRecordsFile propagates every decode error
unchanged, a not-found error included; it has no counterpart of the
no-such-file tolerance of ReadBoardArticleRecordsFile. -/
theorem C7_amended_treasure_errors_propagate (db : DB) (boardID : String)
    (treasureID : List String) (path : String) (e : Err)
    (hp : db.connector.getBoardTreasureRecordsPath boardID treasureID =
      Except.ok path)
    (he : db.connector.readArticleRecordsFile path = Except.error e) :
    db.ReadBoardTreasureRecordsFile boardID treasureID = Except.error e := by
  simp [DB.ReadBoardTreasureRecordsFile, hp, he]

/-- Witness for the amended C7 on the demo connector, whose treasure path
for board B has no file behind it. -/
theorem C7_witness :
    dbDemo.ReadBoardTreasureRecordsFile "B" ["t2"] =
      Except.error (missingMsg "man/B/.DIR") :=
  C7_amended_treasure_errors_propagate dbDemo "B" ["t2"] "man/B/.DIR"
    (missingMsg "man/B/.DIR") rfl rfl

/-- C8: when the aggregation scan is taken and some non-skipped board has a
resolvable index path whose decode fails with an error that is not a
not-found error, while every earlier non-skipped board read succeeded,
GetUserArticleRecordFile returns exactly that error: no partial record list
reaches the caller. -/
theorem C8_scan_error_aborts (db : DB) (u : String)
    (pre post : List BoardRecord) (bad : BoardRecord)
    (badPath : String) (e : Err)
    (hfall : fallbackCond db u)
    (hboards : db.ReadBoardRecords = Except.ok (pre ++ bad :: post))
    (hpre : ∀ b ∈ pre, shouldSkip b.boardID = false →
      ∃ l, db.ReadBoardArticleRecordsFile b.boardID = Except.ok l)
    (hbad : shouldSkip bad.boardID = false)
    (hbadPath : db.connector.getBoardArticleRecordsPath bad.boardID =
      Except.ok badPath)
    (hbadRead : db.connector.readArticleRecordsFile badPath = Except.error e)
    (hnf : strContains e noSuchFileMsg = false) :
    db.GetUserArticleRecordFile u = Except.error e := by
  have hre : db.ReadBoardArticleRecordsFile bad.boardID = Except.error e := by
    simp [DB.ReadBoardArticleRecordsFile, hbadPath, hbadRead, hnf]
  unfold DB.GetUserArticleRecordFile
  rw [getUserArticle_fallback db u hfall,
    aggregateScan_ok_boards db u _ hboards]
  exact scanBoards_err db u e pre bad post [] hpre hbad hre

/-- Witness for C8: board A of the malformed fixture reads fine, board C is
present but malformed, and the whole aggregation returns the format error
with no record list. -/
theorem C8_witness :
    dbBad.GetUserArticleRecordFile "U" = Except.error fmtErr :=
  C8_scan_error_aborts dbBad "U" [mkBoard "A"] [] (mkBoard "C")
    "boards/C/.DIR" fmtErr (Or.inl rfl) rfl
    (fun b hb _ => by
      have hbeq : b = mkBoard "A" := List.mem_singleton.mp hb
      subst hbeq
      exact ⟨artsA, rfl⟩)
    (by decide) rfl rfl (by decide)

/-- C9: Open on an unregistered driver name fails with the
driver-not-found configuration error (and no facade); on a registered name
whose connector Open fails, it fails with that error wrapped with the
driver name; and on success it returns the facade bound to the registered
connector. -/
theorem C9_open_behaviour (reg : Registry) (name dsn : String) :
    (reg name = none →
      Open reg name dsn = Except.error (driverNotFoundMsg name)) ∧
    (∀ c e, reg name = some c → c.openDSN dsn = Except.error e →
      Open reg name dsn = Except.error (driverOpenErrMsg name e)) ∧
    (∀ c, reg name = some c → c.openDSN dsn = Except.ok () →
      Open reg name dsn = Except.ok { connector := c }) := by
  refine ⟨fun h => ?_, fun c e h1 h2 => ?_, fun c h1 h2 => ?_⟩
  · simp [Open, h]
  · simp [Open, h1, h2]
  · simp [Open, h1, h2]

/-- Witness for C9: an empty registry rejects an unknown name, a registered
driver whose Open fails surfaces the wrapped error, and a registered driver
whose Open succeeds yields the bound facade. -/
theorem C9_witness :
    Open emptyReg "pttbbs" "dsn" =
        Except.error (driverNotFoundMsg "pttbbs") ∧
      Open regBad "bad" "dsn" =
        Except.error (driverOpenErrMsg "bad" "bad dsn") ∧
      Open regGood "good" "dsn" = Except.ok { connector := connGood } :=
  ⟨(C9_open_behaviour emptyReg "pttbbs" "dsn").1 rfl,
    (C9_open_behaviour regBad "bad" "dsn").2.1 connBad "bad dsn" rfl rfl,
    (C9_open_behaviour regGood "good" "dsn").2.2 connGood rfl rfl⟩

/-- C10: ReadBoardArticleRecordsFile classifies a decode error purely by
whether its message contains the no-such-file substring: the result is the
empty successful list when the substring occurs in the message, whatever the
error actually was, and the propagated error when it does not. -/
theorem C10_classification_by_substring_only (db : DB)
    (boardID path : String) (e : Err)
    (hp : db.connector.getBoardArticleRecordsPath boardID = Except.ok path)
    (he : db.connector.readArticleRecordsFile path = Except.error e) :
    db.ReadBoardArticleRecordsFile boardID =
      if strContains e noSuchFileMsg then Except.ok []
      else Except.error e := by
  simp [DB.ReadBoardArticleRecordsFile, hp, he]

/-- Witness for C10: a decode failure that is plainly a parse error, but
whose message happens to contain the no-such-file substring, is silently
mapped to an empty successful result. -/
theorem C10_witness :
    dbTricky.ReadBoardArticleRecordsFile "T" = Except.ok [] := by
  rw [C10_classification_by_substring_only dbTricky "T" "boards/T/.DIR"
    trickyErr rfl rfl]
  decide

end BBS
